import Mathlib

/-!
Verification development for the `coordinatore` repository.

Shallow embedding of the two source files:
- `src/_trash/executor.py` (leverage table, position sizing, Pyth price
  resolution, on-chain dispatch stub, trade-intent pipeline), and
- `src/_trash/main_before_trade_intent.py` (scan pipeline: mock scorer,
  risk veto, ranker, per-tenant fan-out).

Modelling conventions:
- Python floats are modelled as exact rationals (`ℚ`); arithmetic is exact.
- Python dicts keyed by strings are modelled as association lists with
  insert-or-overwrite semantics (`dictInsert`), matching dict insertion
  order; `dict.get` is `List.lookup`.
- Python's stable `sorted(..., key=..., reverse=True)` is modelled as
  `List.insertionSort` with the relation "key of the left argument is at
  least the key of the right argument". A stable sort is uniquely
  determined by the comparator and the input order, so both programs
  compute the same list.
- Raised exceptions are modelled with `Except`; network and database
  effects are modelled by passing the feed response as data and by
  recording an explicit trace of attempted pipeline steps.
-/

namespace Coordinatore

/-! ### Leverage table (`executor.py` lines 39-106) -/

/-- Asset classes distinguished by `_asset_class`. -/
inductive AssetClass
  | CRYPTO
  | METAL
  | INDEX
  | FX
deriving DecidableEq

/-- Leverage ceilings per asset class; the source reads them from the
environment variables `MAX_LEVERAGE_FX/CRYPTO/METAL/INDEX`. -/
structure LeverageConfig where
  fx : ℚ
  crypto : ℚ
  metal : ℚ
  index : ℚ
deriving DecidableEq

/-- The environment-variable defaults of `executor.py` lines 39-42:
FX=40, CRYPTO=40, METAL=40, INDEX=20. -/
def defaultLeverageConfig : LeverageConfig :=
  { fx := 40, crypto := 40, metal := 40, index := 20 }

/-- Models `_asset_class` (`executor.py` lines 86-95). -/
def asset_class (symbol : String) : AssetClass :=
  if symbol = "BTCUSD" ∨ symbol = "ETHUSD" then .CRYPTO
  else if symbol = "XAUUSD" ∨ symbol = "XAGUSD" ∨ symbol = "LIGHTCMDUSD" then .METAL
  else if symbol = "DOLLARIDXUSD" then .INDEX
  else .FX

/-- Models `_max_leverage_for` (`executor.py` lines 98-106). -/
def max_leverage_for (cfg : LeverageConfig) (symbol : String) : ℚ :=
  match asset_class symbol with
  | .CRYPTO => cfg.crypto
  | .METAL => cfg.metal
  | .INDEX => cfg.index
  | .FX => cfg.fx

/-! ### Pyth price resolution (`executor.py` lines 46-68 and 215-241) -/

/-- Models the `PYTH_FEEDS` symbol-to-feed-id table (`executor.py` lines
46-68). Every value in the table is a non-empty hex string, so the
source's falsiness test `if not feed_id` is equivalent to the lookup
returning nothing. -/
def PYTH_FEEDS : List (String × String) :=
  [("EURUSD",       "0xa995d00bb36a63cef7fd2c287dc105fc8f3d93779f062f09551b0af3e81ec30b"),
   ("GBPUSD",       "0x84c2dde9633d93d1bcad84e7dc41c9d56578b7ec52fabedc1f335d673df0a7c1"),
   ("AUDUSD",       "0x67a6f93030420c1c9e3fe37c1ab6b77966af82f995944a9fefce357a22854a80"),
   ("USDJPY",       "0xef2c98c804ba503c6a707e38be4dfbb16683775f195b091252bf24693042fd52"),
   ("USDCHF",       "0x0b1e3297e69f162877b577b0d6a47a0d63b2392bc8499e6540da4187a63e28f8"),
   ("USDCAD",       "0x3112b03a41c910ed446852aacf67118cb1bec67b2cd0b9a214c58cc0eaa2ecca"),
   ("EURJPY",       "0xd8c874fa511b9838d094109f996890642421e462c3b29501a2560cecf82c2eb4"),
   ("AUDJPY",       "0x8dbbb66dff44114f0bfc34a1d19f0fe6fc3906dcc72f7668d3ea936e1d6544ce"),
   ("CADJPY",       "0x9e19cbf0b363b3ce3fa8533e171f449f605a7ca5bb272a9b80df4264591c4cbb"),
   ("GBPJPY",       "0xcfa65905787703c692c3cac2b8a009a1db51ce68b54f5b206ce6a55bfa2c3cd1"),
   ("DOLLARIDXUSD", "0x710afe0041a07156bfd71971160c78a326bf8121403e0d4e140d06bea0353b7f"),
   ("XAGUSD",       "0xf2fb02c32b055c805e7238d628e5e9dadef274376114eb1f012337cabe93871e"),
   ("XAUUSD",       "0x765d2ba906dbc32ca17cc11f5310a89e9ee1f6420508c63861f2f8ba4ee34bb2"),
   ("LIGHTCMDUSD",  "0x925ca92ff005ae943c158e3563f59698ce7e75c5a8c8dd43303a0a154887b3e6"),
   ("BTCUSD",       "0xe62df6c8b4a85fe1a67db44dc12de5db330f7ac66b72dc658afedf0f4a415b43"),
   ("ETHUSD",       "0xff61491a931112ddf1bd8147cd1b641375f79f5825126d665480874634fd0ace")]

/-- Models the JSON object `item["price"]` of a Hermes response item:
both the mantissa field `price` and the exponent field `expo` may be
absent. -/
structure PythPriceObj where
  price : Option ℤ
  expo : Option ℤ
deriving DecidableEq

/-- Models one item of the Hermes `latest_price_feeds` response; the
`price` object itself may be absent (`item.get("price", {})`). -/
structure FeedItem where
  price : Option PythPriceObj
deriving DecidableEq

/-- Typed counterpart of the exceptions raised by `fetch_pyth_price`:
`ValueError` for a symbol with no configured feed (`UnknownSymbol` in the
spec taxonomy), `RuntimeError` for an empty or malformed payload
(`FeedUnavailable`). -/
inductive PriceError
  | UnknownSymbol
  | FeedUnavailable
deriving DecidableEq

/-- Reading a key from an association list: the semantics of a Python
dict lookup `d.get(k)`. -/
def dictGet {β : Type} (k : String) : List (String × β) → Option β
  | [] => none
  | (k', v) :: t => if k = k' then some v else dictGet k t

/-- Models `fetch_pyth_price` (`executor.py` lines 215-241). The HTTP
round trip is abstracted: the decoded response list is an argument. -/
def fetch_pyth_price (symbol : String) (data : List FeedItem) : Except PriceError ℚ :=
  match dictGet symbol PYTH_FEEDS with
  | none => .error .UnknownSymbol
  | some _feed_id =>
    match data with
    | [] => .error .FeedUnavailable
    | item :: _ =>
      let price_obj := item.price.getD { price := none, expo := none }
      match price_obj.price with
      | none => .error .FeedUnavailable
      | some px =>
        let expo := price_obj.expo.getD 0
        .ok ((px : ℚ) * (10 : ℚ) ^ expo)

/-! ### Position sizing (`executor.py` lines 248-269) -/

/-- Typed counterpart of the `ValueError` raised by
`compute_position_size` (`InvalidSizing` in the spec taxonomy). -/
inductive SizingError
  | InvalidSizing
deriving DecidableEq

/-- Models the dict returned by `compute_position_size`
(`executor.py` lines 262-269). -/
structure SizeInfo where
  equity : ℚ
  risk_amount : ℚ
  max_leverage : ℚ
  notional : ℚ
  qty : ℚ
  price : ℚ
deriving DecidableEq

/-- Models `compute_position_size` (`executor.py` lines 248-269). -/
def compute_position_size (cfg : LeverageConfig) (equity risk_pct price : ℚ)
    (symbol : String) : Except SizingError SizeInfo :=
  let max_lev := max_leverage_for cfg symbol
  let risk_amount := equity * risk_pct
  let notional := risk_amount * max_lev
  if notional ≤ 0 ∨ price ≤ 0 then .error .InvalidSizing
  else .ok { equity := equity, risk_amount := risk_amount, max_leverage := max_lev,
             notional := notional, qty := notional / price, price := price }

/-! ### On-chain dispatch stub (`executor.py` lines 272-316) -/

/-- Models the settlement-collaborator configuration read by `_get_web3`:
the three environment variables (absent or empty modelled as `none`) and
whether the `web3` package imported successfully. -/
structure OnchainConfig where
  arbitrum_rpc_url : Option String
  relayer_pk : Option String
  ponte_address : Option String
  web3_installed : Bool
deriving DecidableEq

/-- Models `_get_web3` (`executor.py` lines 272-280): whether a web3
instance is available. -/
def get_web3 (cfg : OnchainConfig) : Bool :=
  cfg.arbitrum_rpc_url.isSome && cfg.relayer_pk.isSome && cfg.ponte_address.isSome
    && cfg.web3_installed

/-- Models `execute_onchain_trade` (`executor.py` lines 283-316): both
the unconfigured branch and the configured branch return the tagged stub
handle `"0xSTUB-" ++ hex(uuid4())` — the real relay call is a TODO in
the source. The fresh uuid hex is an argument. -/
def execute_onchain_trade (cfg : OnchainConfig) (_symbol _direction : String)
    (_size : SizeInfo) (uuidHex : String) : String :=
  if get_web3 cfg = false then
    "0xSTUB-" ++ uuidHex
  else
    "0xSTUB-" ++ uuidHex

/-! ### Trade-intent pipeline (`executor.py` lines 323-375) -/

/-- The steps of `process_trade_intent`, in source order: tenant
bootstrap, signal insertion, price resolution, sizing, on-chain
dispatch. A step appears in the trace exactly when the pipeline run
attempted it. -/
inductive Step
  | ensure_tenant
  | save_signal
  | fetch_price
  | compute_size
  | dispatch_onchain
deriving DecidableEq

/-- Typed counterpart of the exceptions that can escape
`process_trade_intent`: the missing-wallet `RuntimeError`
(`ConfigurationMissing` in the spec taxonomy) and the price/sizing
failures propagated from the components. -/
inductive PipeError
  | ConfigurationMissing
  | Price (e : PriceError)
  | Sizing (e : SizingError)
deriving DecidableEq

/-- Models the inbound trade intent consumed by `process_trade_intent`. -/
structure TradeIntent where
  user_id : Option String
  symbol : String
  risk_pct : ℚ
  direction : String
deriving DecidableEq

/-- Models the wallet-related environment read at the start of
`process_trade_intent` (`executor.py` lines 337-342). -/
structure EnvConfig where
  test_user_wallet : Option String
  relayer_address : Option String
deriving DecidableEq

/-- Models the dict returned by `process_trade_intent`
(`executor.py` lines 363-375). -/
structure IntentResult where
  intent_id : String
  status : String
  message : String
  symbol : String
  user_id : String
  risk_pct : ℚ
  equity : ℚ
  price : ℚ
  size : SizeInfo
  tx_hash : String
  signal_id : String
deriving DecidableEq

/-- Models `get_equity_for_user` (`executor.py` lines 201-208): a fixed
placeholder equity of 10000. -/
def get_equity_for_user (_user_id : String) : ℚ := 10000

/-- Models `process_trade_intent` (`executor.py` lines 323-375).
Database writes (`ensure_test_user`, `get_or_create_signal`) have no
influence on the returned value; they are recorded in the step trace.
The uuid source is the argument `gen` (`gen 0` is the signal id, `gen 1`
the stub transaction hex, `gen 2` the intent id). The first component is
the returned dict or the raised exception; the second is the trace of
attempted steps. -/
def process_trade_intent (env : EnvConfig) (onchain : OnchainConfig)
    (cfg : LeverageConfig) (intent : TradeIntent) (feed : List FeedItem)
    (gen : ℕ → String) : Except PipeError IntentResult × List Step :=
  let user_id := intent.user_id.getD "TEST_USER_001"
  let test_wallet := env.test_user_wallet.getD (env.relayer_address.getD "")
  if test_wallet = "" then (.error .ConfigurationMissing, [])
  else
    let signal_id := gen 0
    let equity := get_equity_for_user user_id
    match fetch_pyth_price intent.symbol feed with
    | .error e => (.error (.Price e), [.ensure_tenant, .save_signal, .fetch_price])
    | .ok price =>
      match compute_position_size cfg equity intent.risk_pct price intent.symbol with
      | .error e =>
        (.error (.Sizing e), [.ensure_tenant, .save_signal, .fetch_price, .compute_size])
      | .ok size_info =>
        let tx_hash := execute_onchain_trade onchain intent.symbol intent.direction
          size_info (gen 1)
        let intent_id := gen 2
        (.ok { intent_id := intent_id, status := "RECEIVED", message := "intent accepted",
               symbol := intent.symbol, user_id := user_id, risk_pct := intent.risk_pct,
               equity := size_info.equity, price := size_info.price, size := size_info,
               tx_hash := tx_hash, signal_id := signal_id },
         [.ensure_tenant, .save_signal, .fetch_price, .compute_size, .dispatch_onchain])

/-! ### Scan pipeline mocks (`main_before_trade_intent.py` lines 169-209) -/

/-- Models the per-symbol score dict produced by `mock_coscienza_score`:
probability `p`, edge `e`, risk `r`, volatility `v`. -/
structure Signal where
  p : ℚ
  e : ℚ
  r : ℚ
  v : ℚ
deriving DecidableEq

/-- Models the symbol universe `SYMBOLS`
(`main_before_trade_intent.py` lines 171-174). -/
def SYMBOLS : List String :=
  ["EURUSD", "GBPUSD", "USDJPY", "USDCHF", "USDCAD",
   "AUDUSD", "NZDUSD", "XAUUSD", "XAGUSD", "WTI",
   "DAX", "SPX", "NDX", "BTCUSD", "ETHUSD",
   "SOLUSD", "ADAUSD", "LINKUSD", "AVAXUSD", "DOGEUSD"]

/-- Models `mock_radar` (`main_before_trade_intent.py` lines 176-178):
the deterministic fixed-size prefix of the universe. -/
def mock_radar (symbols : List String) : List String :=
  symbols.take 5

/-- Models `mock_pyth_prices` (`main_before_trade_intent.py` lines
180-185): fixed base prices, default 1.0. -/
def mock_pyth_prices (symbols : List String) : List (String × ℚ) :=
  let base : List (String × ℚ) :=
    [("EURUSD", 1.07), ("GBPUSD", 1.25), ("USDJPY", 150.0),
     ("XAUUSD", 1995.0), ("BTCUSD", 65000.0)]
  symbols.map fun s => (s, (dictGet s base).getD 1.0)

/-- Python's `%` operation for a positive rational modulus:
`a - b * floor(a / b)`, always in `[0, b)` for `b > 0`. -/
def pymod (a b : ℚ) : ℚ := a - b * (⌊a / b⌋ : ℚ)

/-- The per-symbol score of `mock_coscienza_score`
(`main_before_trade_intent.py` lines 190-198), as a function of the
price: `score = (price % 7) / 7`, `p = min(0.99, 0.5 + score*0.4)`,
`e = min(0.99, 0.6 + score*0.3)`, `r = v = 0.9`. -/
def coscienza_signal (price : ℚ) : Signal :=
  let score := pymod price 7 / 7
  { p := min 0.99 (0.50 + score * 0.40)
    e := min 0.99 (0.60 + score * 0.30)
    r := 0.9
    v := 0.9 }

/-- Insert-or-overwrite of one key into an association list, keeping the
position of an existing key: the update semantics of a Python dict
assignment `out[k] = v`. -/
def dictInsert {β : Type} (k : String) (v : β) : List (String × β) → List (String × β)
  | [] => [(k, v)]
  | (k', v') :: t => if k' = k then (k, v) :: t else (k', v') :: dictInsert k v t

/-- Models `mock_coscienza_score` (`main_before_trade_intent.py` lines
187-199): a dict with one entry per input symbol, scored from the
symbol's price (default 1.0 when the symbol has no price). -/
def mock_coscienza_score (symbols : List String) (prices : List (String × ℚ)) :
    List (String × Signal) :=
  symbols.foldl
    (fun out s => dictInsert s (coscienza_signal ((dictGet s prices).getD 1.0)) out) []

/-- Models `risk_manager` (`main_before_trade_intent.py` lines 201-204):
accept a signal exactly when `p * e >= 0.6`. -/
def risk_manager (signal : Signal) : Bool :=
  decide ((0.6 : ℚ) ≤ signal.p * signal.e)

/-- The ranking key of `top_signals`: `kv[1]["p"] * kv[1]["e"]`. -/
def peKey (x : String × Signal) : ℚ := x.2.p * x.2.e

/-- The comparison used by `sorted(..., key=peKey, reverse=True)`: the
left element ranks at least as high as the right one. -/
def rankGE (a b : String × Signal) : Prop := peKey b ≤ peKey a

instance : DecidableRel rankGE :=
  fun a b => inferInstanceAs (Decidable (peKey b ≤ peKey a))

instance : IsTotal (String × Signal) rankGE :=
  ⟨fun a b => le_total (peKey b) (peKey a)⟩

instance : IsTrans (String × Signal) rankGE :=
  ⟨fun _ _ _ h₁ h₂ => le_trans h₂ h₁⟩

/-- Models `top_signals` (`main_before_trade_intent.py` lines 206-209):
stable descending sort by `p*e`, then truncate to the first `k`. Python's
`sorted` is a stable sort, and a stable sort is determined uniquely by
the comparator and the input order, so `List.insertionSort rankGE` (which
keeps an earlier element in front of later elements of equal key)
computes the same list. -/
def top_signals (scores : List (String × Signal)) (k : ℕ) : List (String × Signal) :=
  (List.insertionSort rankGE scores).take k

/-- Models the selection of `tick` (`main_before_trade_intent.py` line
99): rank and truncate first, then drop the candidates rejected by the
risk veto. The source calls it with `k = 3`. -/
def tick_picks (scores : List (String × Signal)) (k : ℕ) : List (String × Signal) :=
  (top_signals scores k).filter fun x => risk_manager x.2

/-- Models the single dispatched candidate of `tick`
(`main_before_trade_intent.py` line 112): `picks[0]` of the `k = 3`
selection, when any candidate survived. -/
def tick_best (scores : List (String × Signal)) : Option (String × Signal) :=
  (tick_picks scores 3).head?

/-- Modelled from the spec: the **RankedSelection** of §3 and §4.9 —
the risk veto is applied first, then the survivors are ranked descending
by `p*e` with the stable sort and truncated to the top `k`. This is the
specification-side description to compare against `tick_picks`. -/
def rankedSelectionSpec (scores : List (String × Signal)) (k : ℕ) :
    List (String × Signal) :=
  (List.insertionSort rankGE (scores.filter fun x => risk_manager x.2)).take k

/-! ### Concrete fixtures used by the counterexamples and witnesses -/

/-- A configured test wallet (`TEST_USER_WALLET` set). -/
def demoEnv : EnvConfig :=
  { test_user_wallet := some "0xTESTWALLET", relayer_address := none }

/-- An entirely unconfigured settlement collaborator. -/
def demoOnchain : OnchainConfig :=
  { arbitrum_rpc_url := none, relayer_pk := none, ponte_address := none,
    web3_installed := false }

/-- The spec's concrete intent: BTCUSD at 0.8 percent risk. -/
def demoIntent : TradeIntent :=
  { user_id := none, symbol := "BTCUSD", risk_pct := 0.008, direction := "LONG" }

/-- A well-formed single-item feed response quoting BTCUSD at 65000. -/
def demoFeed : List FeedItem :=
  [{ price := some { price := some 65000, expo := some 0 } }]

/-- A fixed uuid source. -/
def demoGen : ℕ → String := fun _ => "cafe"

/-- The sizing result of the spec's concrete scenario. -/
def demoSize : SizeInfo :=
  { equity := 10000, risk_amount := 80, max_leverage := 40,
    notional := 3200, qty := 3200 / 65000, price := 65000 }

open List

/-! ### Helper lemmas -/

/-- Reading a key after a dict insert: the inserted key maps to the new
value, every other key is unchanged. -/
theorem dictGet_dictInsert {β : Type} (k s : String) (v : β) (l : List (String × β)) :
    dictGet s (dictInsert k v l) = if s = k then some v else dictGet s l := by
  induction l with
  | nil => by_cases hs : s = k <;> simp [dictInsert, dictGet, hs]
  | cons hd tl ih =>
    obtain ⟨k', v'⟩ := hd
    by_cases hk : k' = k
    · subst hk
      by_cases hs : s = k' <;> simp [dictInsert, dictGet, hs]
    · by_cases hs : s = k'
      · have hsk : ¬s = k := fun h => hk (hs.symm.trans h)
        simp [dictInsert, dictGet, hk, hs, hsk]
      · simp [dictInsert, dictGet, hk, hs, ih]

/-- Folding dict inserts whose value is a function of the key: every
symbol of the list ends up mapped to its value. -/
theorem dictGet_foldl_dictInsert {β : Type} (f : String → β) :
    ∀ (symbols : List String) (init : List (String × β)) (s : String),
      dictGet s (symbols.foldl (fun out x => dictInsert x (f x) out) init) =
        if s ∈ symbols then some (f s) else dictGet s init := by
  intro symbols
  induction symbols with
  | nil => intro init s; simp
  | cons a t ih =>
    intro init s
    simp only [List.foldl_cons]
    rw [ih, dictGet_dictInsert]
    by_cases hs : s ∈ t
    · simp [hs]
    · by_cases hsa : s = a <;> simp [hs, hsa]

/-- A member of a dict insert is either the inserted pair or a member of
the original list. -/
theorem mem_dictInsert {β : Type} (x : String × β) (k : String) (v : β) :
    ∀ l : List (String × β), x ∈ dictInsert k v l → x = (k, v) ∨ x ∈ l := by
  intro l
  induction l with
  | nil =>
    intro hx
    simp only [dictInsert] at hx
    exact Or.inl (List.mem_singleton.mp hx)
  | cons hd tl ih =>
    obtain ⟨k', v'⟩ := hd
    intro hx
    by_cases hk : k' = k
    · subst hk
      simp only [dictInsert, if_pos rfl] at hx
      rcases List.mem_cons.mp hx with h | h
      · exact Or.inl h
      · exact Or.inr (List.mem_cons_of_mem _ h)
    · simp only [dictInsert, if_neg hk] at hx
      rcases List.mem_cons.mp hx with h | h
      · exact Or.inr (by simp [h])
      · rcases ih h with h' | h'
        · exact Or.inl h'
        · exact Or.inr (List.mem_cons_of_mem _ h')

/-- Every pair of a fold of dict inserts whose value is a function of
the key satisfies that relation. -/
theorem snd_eq_of_mem_foldl_dictInsert {β : Type} (f : String → β) :
    ∀ (symbols : List String) (init : List (String × β)),
      (∀ y ∈ init, y.2 = f y.1) →
      ∀ y ∈ symbols.foldl (fun out x => dictInsert x (f x) out) init, y.2 = f y.1 := by
  intro symbols
  induction symbols with
  | nil => intro init hinit y hy; exact hinit y hy
  | cons a t ih =>
    intro init hinit y hy
    simp only [List.foldl_cons] at hy
    refine ih _ ?_ y hy
    intro z hz
    rcases mem_dictInsert z a (f a) init hz with h | h
    · rw [h]
    · exact hinit z h

/-- The result of Python's `%` with modulus 7 lies in `[0, 7)`. -/
theorem pymod_seven_bounds (a : ℚ) : 0 ≤ pymod a 7 ∧ pymod a 7 < 7 := by
  unfold pymod
  constructor
  · have h := Int.floor_le (a / 7)
    linarith
  · have h := Int.lt_floor_add_one (a / 7)
    linarith

/-- Numeric range of the mock scorer for a single price. -/
theorem coscienza_signal_bounds (q : ℚ) :
    0.5 ≤ (coscienza_signal q).p ∧ (coscienza_signal q).p ≤ 0.99 ∧
    0.6 ≤ (coscienza_signal q).e ∧ (coscienza_signal q).e ≤ 0.99 ∧
    0.30 ≤ (coscienza_signal q).p * (coscienza_signal q).e ∧
    (coscienza_signal q).r = 0.9 ∧ (coscienza_signal q).v = 0.9 := by
  have h0 := (pymod_seven_bounds q).1
  have hsc : (0 : ℚ) ≤ pymod q 7 / 7 := div_nonneg h0 (by norm_num)
  have h40 : (0 : ℚ) ≤ pymod q 7 / 7 * 0.40 := mul_nonneg hsc (by norm_num)
  have h30 : (0 : ℚ) ≤ pymod q 7 / 7 * 0.30 := mul_nonneg hsc (by norm_num)
  have hp1 : (0.5 : ℚ) ≤ (coscienza_signal q).p := by
    show (0.5 : ℚ) ≤ min 0.99 (0.50 + pymod q 7 / 7 * 0.40)
    exact le_min (by norm_num) (by linarith)
  have hp2 : (coscienza_signal q).p ≤ 0.99 := by
    show min (0.99 : ℚ) (0.50 + pymod q 7 / 7 * 0.40) ≤ 0.99
    exact min_le_left _ _
  have he1 : (0.6 : ℚ) ≤ (coscienza_signal q).e := by
    show (0.6 : ℚ) ≤ min 0.99 (0.60 + pymod q 7 / 7 * 0.30)
    exact le_min (by norm_num) (by linarith)
  have he2 : (coscienza_signal q).e ≤ 0.99 := by
    show min (0.99 : ℚ) (0.60 + pymod q 7 / 7 * 0.30) ≤ 0.99
    exact min_le_left _ _
  have hpe := mul_le_mul hp1 he1 (by norm_num) (le_trans (by norm_num) hp1)
  exact ⟨hp1, hp2, he1, he2, by linarith, rfl, rfl⟩

/-- The default leverage ceiling of every asset class is positive. -/
theorem default_max_leverage_pos (s : String) :
    0 < max_leverage_for defaultLeverageConfig s := by
  unfold max_leverage_for
  cases asset_class s <;> norm_num [defaultLeverageConfig]

/-- Success shape of the position sizer when the guard does not fire. -/
theorem compute_position_size_eq_ok (cfg : LeverageConfig)
    (equity risk_pct price : ℚ) (symbol : String)
    (h : ¬(equity * risk_pct * max_leverage_for cfg symbol ≤ 0 ∨ price ≤ 0)) :
    compute_position_size cfg equity risk_pct price symbol =
      .ok { equity := equity, risk_amount := equity * risk_pct,
            max_leverage := max_leverage_for cfg symbol,
            notional := equity * risk_pct * max_leverage_for cfg symbol,
            qty := equity * risk_pct * max_leverage_for cfg symbol / price,
            price := price } := by
  simp only [compute_position_size]
  rw [if_neg h]

/-- Price resolution fails on a symbol with no registered feed id. -/
theorem fetch_pyth_price_unknown (symbol : String) (data : List FeedItem)
    (h : dictGet symbol PYTH_FEEDS = none) :
    fetch_pyth_price symbol data = .error .UnknownSymbol := by
  simp [fetch_pyth_price, h]

/-- Price resolution fails on an empty payload for a registered symbol. -/
theorem fetch_pyth_price_empty (symbol fid : String)
    (h : dictGet symbol PYTH_FEEDS = some fid) :
    fetch_pyth_price symbol [] = .error .FeedUnavailable := by
  simp [fetch_pyth_price, h]

/-- Price resolution fails when the first item has no mantissa. -/
theorem fetch_pyth_price_no_mantissa (symbol fid : String) (item : FeedItem)
    (rest : List FeedItem) (h : dictGet symbol PYTH_FEEDS = some fid)
    (hpx : (item.price.getD { price := none, expo := none }).price = none) :
    fetch_pyth_price symbol (item :: rest) = .error .FeedUnavailable := by
  simp [fetch_pyth_price, h, hpx]

/-- Price resolution succeeds with `mantissa * 10 ^ exponent` from the
first item, the exponent defaulting to 0. -/
theorem fetch_pyth_price_eq_ok (symbol fid : String) (item : FeedItem)
    (rest : List FeedItem) (px : ℤ) (h : dictGet symbol PYTH_FEEDS = some fid)
    (hpx : (item.price.getD { price := none, expo := none }).price = some px) :
    fetch_pyth_price symbol (item :: rest) =
      .ok ((px : ℚ) * (10 : ℚ) ^
        ((item.price.getD { price := none, expo := none }).expo.getD 0)) := by
  simp [fetch_pyth_price, h, hpx]

/-! ### Claims -/

/-- C9: asset classification is total, assigns each symbol exactly one
class following the priority order crypto, metal, index, FX, and the
default configuration gives ceiling 40 to FX, CRYPTO and METAL and 20 to
INDEX. -/
theorem C9_asset_classification :
    ∀ s : String,
      (asset_class s = .CRYPTO ↔ s = "BTCUSD" ∨ s = "ETHUSD") ∧
      (asset_class s = .METAL ↔
        ¬(s = "BTCUSD" ∨ s = "ETHUSD") ∧
          (s = "XAUUSD" ∨ s = "XAGUSD" ∨ s = "LIGHTCMDUSD")) ∧
      (asset_class s = .INDEX ↔
        ¬(s = "BTCUSD" ∨ s = "ETHUSD") ∧
          ¬(s = "XAUUSD" ∨ s = "XAGUSD" ∨ s = "LIGHTCMDUSD") ∧ s = "DOLLARIDXUSD") ∧
      (asset_class s = .FX ↔
        ¬(s = "BTCUSD" ∨ s = "ETHUSD") ∧
          ¬(s = "XAUUSD" ∨ s = "XAGUSD" ∨ s = "LIGHTCMDUSD") ∧ s ≠ "DOLLARIDXUSD") ∧
      max_leverage_for defaultLeverageConfig s =
        (if asset_class s = .INDEX then 20 else 40) := by
  intro s
  have hml : max_leverage_for defaultLeverageConfig s =
      (if asset_class s = .INDEX then 20 else 40) := by
    unfold max_leverage_for
    cases h : asset_class s <;> simp [h, defaultLeverageConfig]
  refine ⟨?_, ?_, ?_, ?_, hml⟩ <;>
    · unfold asset_class
      split_ifs with h1 h2 h3 <;> simp_all

/-- Witness for C9 at the concrete symbols BTCUSD and DOLLARIDXUSD. -/
theorem C9_asset_classification_witness :
    asset_class "BTCUSD" = .CRYPTO ∧ asset_class "DOLLARIDXUSD" = .INDEX ∧
    max_leverage_for defaultLeverageConfig "BTCUSD" = 40 ∧
    max_leverage_for defaultLeverageConfig "DOLLARIDXUSD" = 20 := by
  have h1 := (C9_asset_classification "BTCUSD").1.mpr (Or.inl rfl)
  have h2 := (C9_asset_classification "DOLLARIDXUSD").2.2.1.mpr (by simp)
  have h3 := (C9_asset_classification "BTCUSD").2.2.2.2
  have h4 := (C9_asset_classification "DOLLARIDXUSD").2.2.2.2
  rw [h1] at h3
  rw [h2] at h4
  simp only [reduceCtorEq, if_false, if_true, reduceIte] at h3 h4
  exact ⟨h1, h2, h3, h4⟩

/-- C6: the risk veto accepts a candidate exactly when `p * e >= 0.6`,
and the comparison is inclusive at the boundary (a candidate with
`p * e = 0.6` exactly, such as `p = 0.75`, `e = 0.8`, is accepted). -/
theorem C6_risk_veto_threshold :
    (∀ s : Signal, risk_manager s = true ↔ (0.6 : ℚ) ≤ s.p * s.e) ∧
    risk_manager { p := 0.75, e := 0.8, r := 0.9, v := 0.9 } = true ∧
    (0.75 : ℚ) * 0.8 = 0.6 := by
  refine ⟨fun s => ?_, ?_, by norm_num⟩
  · simp [risk_manager]
  · simp only [risk_manager, decide_eq_true_eq]
    norm_num

/-- Witness for C6 at a concrete accepted candidate. -/
theorem C6_risk_veto_threshold_witness :
    risk_manager { p := 0.9, e := 0.9, r := 0.9, v := 0.9 } = true :=
  (C6_risk_veto_threshold.1 _).mpr (by norm_num)

/-- C5: the position sizer fails with `InvalidSizing` exactly when the
computed notional is nonpositive or the price is nonpositive, and in
every success case the produced quantity, notional and price are
strictly positive (a failure carries no quantity by the `Except` type,
so no zero-size result is ever silently returned). -/
theorem C5_invalid_sizing_iff :
    ∀ (cfg : LeverageConfig) (equity risk_pct price : ℚ) (symbol : String),
      (compute_position_size cfg equity risk_pct price symbol = .error .InvalidSizing ↔
        equity * risk_pct * max_leverage_for cfg symbol ≤ 0 ∨ price ≤ 0) ∧
      (∀ info, compute_position_size cfg equity risk_pct price symbol = .ok info →
        0 < info.qty ∧ 0 < info.notional ∧ 0 < info.price) := by
  intro cfg equity risk_pct price symbol
  simp only [compute_position_size]
  by_cases h : equity * risk_pct * max_leverage_for cfg symbol ≤ 0 ∨ price ≤ 0
  · rw [if_pos h]
    exact ⟨iff_of_true rfl h, fun info hinfo => Except.noConfusion hinfo⟩
  · rw [if_neg h]
    refine ⟨iff_of_false (fun hc => Except.noConfusion hc) h, fun info hinfo => ?_⟩
    push_neg at h
    cases Except.ok.inj hinfo
    exact ⟨div_pos h.1 h.2, h.1, h.2⟩

/-- Witness for C5: a zero price is rejected with `InvalidSizing`. -/
theorem C5_invalid_sizing_iff_witness :
    compute_position_size defaultLeverageConfig 10000 0.008 0 "BTCUSD" =
      .error .InvalidSizing :=
  (C5_invalid_sizing_iff defaultLeverageConfig 10000 0.008 0 "BTCUSD").1.mpr
    (Or.inr le_rfl)

/-- Counterexample for C1 as stated: at `equity = 0` (allowed by the
claim's `equity ≥ 0`), `riskFraction = 0.008` in `(0,1]` and
`price = 65000 > 0`, the sizer does not return the stated quantities —
it fails with `InvalidSizing`, because the computed notional is 0. -/
theorem C1_cex_zero_equity :
    ((0 : ℚ) ≤ 0 ∧ (0 : ℚ) < 0.008 ∧ (0.008 : ℚ) ≤ 1 ∧ (0 : ℚ) < 65000) ∧
    compute_position_size defaultLeverageConfig 0 0.008 65000 "BTCUSD" =
      .error .InvalidSizing := by
  refine ⟨by norm_num, ?_⟩
  simp only [compute_position_size]
  rw [if_pos (Or.inl (by simp))]

/-- C1 (amended: `equity > 0` instead of `equity ≥ 0`): for every
positive equity, risk fraction in `(0,1]`, positive price and every
symbol, the sizer returns exactly `riskAmount = equity * riskFraction`,
`notional = riskAmount * maxLeverage(symbol)` and
`quantity = notional / price` under the default leverage configuration. -/
theorem C1_position_sizing_formula :
    ∀ (equity risk_pct price : ℚ) (symbol : String),
      0 < equity → 0 < risk_pct → risk_pct ≤ 1 → 0 < price →
      compute_position_size defaultLeverageConfig equity risk_pct price symbol =
        .ok { equity := equity,
              risk_amount := equity * risk_pct,
              max_leverage := max_leverage_for defaultLeverageConfig symbol,
              notional := equity * risk_pct * max_leverage_for defaultLeverageConfig symbol,
              qty := equity * risk_pct * max_leverage_for defaultLeverageConfig symbol / price,
              price := price } := by
  intro equity risk_pct price symbol he hr _ hp
  have hnot : 0 < equity * risk_pct * max_leverage_for defaultLeverageConfig symbol :=
    mul_pos (mul_pos he hr) (default_max_leverage_pos symbol)
  exact compute_position_size_eq_ok _ _ _ _ _ (by push_neg; exact ⟨hnot, hp⟩)

/-- Witness for C1 at the spec's concrete scenario: equity 10000, risk
fraction 0.008, price 65000, symbol BTCUSD (CRYPTO, max leverage 40)
give risk amount 80, notional 3200 and quantity 3200/65000. -/
theorem C1_position_sizing_formula_witness :
    compute_position_size defaultLeverageConfig 10000 0.008 65000 "BTCUSD" =
      .ok { equity := 10000, risk_amount := 80, max_leverage := 40,
            notional := 3200, qty := 3200 / 65000, price := 65000 } := by
  have h := C1_position_sizing_formula 10000 0.008 65000 "BTCUSD"
    (by norm_num) (by norm_num) (by norm_num) (by norm_num)
  have hml : max_leverage_for defaultLeverageConfig "BTCUSD" = 40 := by
    simp [max_leverage_for, asset_class, defaultLeverageConfig]
  rw [h, hml]
  norm_num

/-- Counterexample for C3 as stated: for the registered symbol BTCUSD
and a response item that carries mantissa 5 but no exponent, price
resolution does not fail with `FeedUnavailable` — the missing exponent
is defaulted to 0 and the call returns 5. -/
theorem C3_cex_missing_expo :
    fetch_pyth_price "BTCUSD" [{ price := some { price := some 5, expo := none } }] =
      .ok 5 ∧
    fetch_pyth_price "BTCUSD" [{ price := some { price := some 5, expo := none } }] ≠
      .error .FeedUnavailable := by
  have h := fetch_pyth_price_eq_ok "BTCUSD"
    "0xe62df6c8b4a85fe1a67db44dc12de5db330f7ac66b72dc658afedf0f4a415b43"
    { price := some { price := some 5, expo := none } } [] 5 rfl rfl
  norm_num at h
  exact ⟨h, by rw [h]; simp⟩

/-- C3 (amended: a missing exponent is not a failure — it defaults to
0): price resolution fails with `UnknownSymbol` when the symbol has no
registered feed identifier, fails with `FeedUnavailable` when the
payload is empty or the first response item is missing the mantissa, and
otherwise returns `mantissa * 10 ^ exponent` from that same item, where
a missing exponent counts as 0. -/
theorem C3_price_resolution :
    ∀ (symbol : String) (data : List FeedItem),
      (dictGet symbol PYTH_FEEDS = none →
        fetch_pyth_price symbol data = .error .UnknownSymbol) ∧
      ((dictGet symbol PYTH_FEEDS).isSome = true → data = [] →
        fetch_pyth_price symbol data = .error .FeedUnavailable) ∧
      (∀ item rest, (dictGet symbol PYTH_FEEDS).isSome = true → data = item :: rest →
        ((item.price.getD { price := none, expo := none }).price = none →
          fetch_pyth_price symbol data = .error .FeedUnavailable) ∧
        (∀ px, (item.price.getD { price := none, expo := none }).price = some px →
          fetch_pyth_price symbol data =
            .ok ((px : ℚ) * (10 : ℚ) ^
              ((item.price.getD { price := none, expo := none }).expo.getD 0)))) := by
  intro symbol data
  refine ⟨fetch_pyth_price_unknown symbol data,
    fun hsome hdata => ?_, fun item rest hsome hdata => ?_⟩
  · obtain ⟨fid, hfid⟩ := Option.isSome_iff_exists.mp hsome
    subst hdata
    exact fetch_pyth_price_empty symbol fid hfid
  · obtain ⟨fid, hfid⟩ := Option.isSome_iff_exists.mp hsome
    subst hdata
    exact ⟨fun hmiss => fetch_pyth_price_no_mantissa symbol fid item rest hfid hmiss,
      fun px hpx => fetch_pyth_price_eq_ok symbol fid item rest px hfid hpx⟩

/-- Witness for C3 at concrete inputs: an unregistered symbol fails with
`UnknownSymbol`, and an empty payload for BTCUSD fails with
`FeedUnavailable`. -/
theorem C3_price_resolution_witness :
    fetch_pyth_price "NOSUCHSYM" [] = .error .UnknownSymbol ∧
    fetch_pyth_price "BTCUSD" [] = .error .FeedUnavailable :=
  ⟨(C3_price_resolution "NOSUCHSYM" []).1 rfl,
   (C3_price_resolution "BTCUSD" []).2.1 rfl rfl⟩

/-- C10: the reference scorer produces one candidate per input symbol
(a symbol without a price is scored with default price 1.0, so scoring
is total), and every produced candidate has `0.5 ≤ p ≤ 0.99`,
`0.6 ≤ e ≤ 0.99` (hence `p, e` lie in `[0, 1)` and `p * e ≥ 0.30`) with
constant `r = 0.9` and `v = 0.9`. -/
theorem C10_scorer_invariants :
    ∀ (symbols : List String) (prices : List (String × ℚ)),
      (∀ s, s ∈ symbols →
        dictGet s (mock_coscienza_score symbols prices) =
          some (coscienza_signal ((dictGet s prices).getD 1.0))) ∧
      (∀ x, x ∈ mock_coscienza_score symbols prices →
        0.5 ≤ x.2.p ∧ x.2.p ≤ 0.99 ∧ 0.6 ≤ x.2.e ∧ x.2.e ≤ 0.99 ∧
        0 ≤ x.2.p ∧ x.2.p < 1 ∧ 0 ≤ x.2.e ∧ x.2.e < 1 ∧
        0.30 ≤ x.2.p * x.2.e ∧ x.2.r = 0.9 ∧ x.2.v = 0.9) := by
  intro symbols prices
  constructor
  · intro s hs
    unfold mock_coscienza_score
    rw [dictGet_foldl_dictInsert (fun x => coscienza_signal ((dictGet x prices).getD 1.0))]
    simp [hs]
  · intro x hx
    have hval : x.2 = coscienza_signal ((dictGet x.1 prices).getD 1.0) :=
      snd_eq_of_mem_foldl_dictInsert
        (fun s => coscienza_signal ((dictGet s prices).getD 1.0))
        symbols [] (by simp) x hx
    obtain ⟨h1, h2, h3, h4, h5, h6, h7⟩ := coscienza_signal_bounds
      ((dictGet x.1 prices).getD 1.0)
    rw [hval]
    exact ⟨h1, h2, h3, h4, le_trans (by norm_num) h1, lt_of_le_of_lt h2 (by norm_num),
      le_trans (by norm_num) h3, lt_of_le_of_lt h4 (by norm_num), h5, h6, h7⟩

/-- Witness for C10: scoring BTCUSD with an empty price map uses the
default price 1.0 and yields an in-range candidate. -/
theorem C10_scorer_invariants_witness :
    dictGet "BTCUSD" (mock_coscienza_score ["BTCUSD"] []) =
      some (coscienza_signal 1.0) ∧
    0.5 ≤ (coscienza_signal 1.0).p := by
  have h := (C10_scorer_invariants ["BTCUSD"] []).1 "BTCUSD" (by simp)
  rw [show dictGet "BTCUSD" ([] : List (String × ℚ)) = none from rfl,
    Option.getD_none] at h
  exact ⟨h, (coscienza_signal_bounds 1.0).1⟩

/-! ### Sorting lemmas for the ranker claims -/

/-- Insertion sort is monotone with respect to sublists. -/
theorem insertionSort_sublist_of_sublist {α : Type} (r : α → α → Prop) [DecidableRel r]
    [IsTotal α r] [IsTrans α r] {m l : List α} (h : m <+ l) :
    List.insertionSort r m <+ List.insertionSort r l := by
  induction h with
  | slnil => exact List.Sublist.refl _
  | cons a h ih => exact ih.trans (List.sublist_orderedInsert _ _)
  | cons₂ a h ih =>
    exact List.Sublist.orderedInsert_sublist a ih (List.sorted_insertionSort r _)

/-- The stable sort commutes with filtering. -/
theorem filter_insertionSort {α : Type} (r : α → α → Prop) [DecidableRel r]
    [IsTotal α r] [IsTrans α r] (p : α → Bool) (l : List α) :
    (List.insertionSort r l).filter p = List.insertionSort r (l.filter p) := by
  have hsub : List.insertionSort r (l.filter p) <+ List.insertionSort r l :=
    insertionSort_sublist_of_sublist r (List.filter_sublist l)
  have hall : ∀ x ∈ List.insertionSort r (l.filter p), p x := by
    intro x hx
    exact (List.mem_filter.mp ((List.mem_insertionSort r).mp hx)).2
  have h1 : List.insertionSort r (l.filter p) <+ (List.insertionSort r l).filter p := by
    have h := hsub.filter p
    rwa [List.filter_eq_self.mpr hall] at h
  have hlen : ((List.insertionSort r l).filter p).length =
      (List.insertionSort r (l.filter p)).length := by
    have hperm : List.Perm ((List.insertionSort r l).filter p) (l.filter p) :=
      (List.perm_insertionSort r l).filter p
    rw [hperm.length_eq, List.length_insertionSort]
  exact (h1.eq_of_length hlen.symm).symm

/-- On a list where satisfying the predicate propagates backwards
(as on a list sorted descending with a threshold predicate), filtering
commutes with truncation. -/
theorem filter_take_of_pairwise_imp {α : Type} (p : α → Bool) :
    ∀ (l : List α) (k : ℕ),
      l.Pairwise (fun a b => p b = true → p a = true) →
      (l.take k).filter p = (l.filter p).take k := by
  intro l
  induction l with
  | nil => intro k _; simp
  | cons a t ih =>
    intro k hp
    obtain ⟨ha, ht⟩ := List.pairwise_cons.mp hp
    cases k with
    | zero => simp
    | succ n =>
      rw [List.take_succ_cons]
      by_cases hpa : p a = true
      · rw [List.filter_cons_of_pos hpa, List.filter_cons_of_pos hpa,
          List.take_succ_cons, ih n ht]
      · have hnone : ∀ x ∈ t, ¬p x = true := fun x hx hpx => hpa (ha x hx hpx)
        rw [List.filter_cons_of_neg hpa, List.filter_cons_of_neg hpa,
          List.filter_eq_nil_iff.mpr (fun x hx => hnone x (List.mem_of_mem_take hx)),
          List.filter_eq_nil_iff.mpr hnone]
        simp

/-- A positive truncation does not change the head of a list. -/
theorem head?_take_pos {α : Type} (l : List α) (n : ℕ) (h : 0 < n) :
    (l.take n).head? = l.head? := by
  cases l with
  | nil => simp
  | cons a t =>
    cases n with
    | zero => exact absurd h (by simp)
    | succ m => simp

/-- The risk veto in terms of the ranking key. -/
theorem risk_manager_iff_key (x : String × Signal) :
    risk_manager x.2 = true ↔ (0.6 : ℚ) ≤ peKey x := by
  simp [risk_manager, peKey]

/-- C7: the ranker returns the stable descending sort by `p * e`
truncated to `k` elements — its length is `min k n`, it is sorted
descending, `k = 0` yields the empty selection, candidates of equal key
appear in input order (the truncated selection's slice at any key value
is a sublist of the input's slice at that value), and the spec's
three-candidate example with `k = 2` returns `[C, A]`. -/
theorem C7_ranker_properties :
    (∀ (scores : List (String × Signal)) (k : ℕ),
      (top_signals scores k).length = min k scores.length ∧
      (top_signals scores k).Sorted rankGE ∧
      top_signals scores 0 = [] ∧
      (∀ v : ℚ, (top_signals scores k).filter (fun x => decide (peKey x = v)) <+
        scores.filter (fun x => decide (peKey x = v)))) ∧
    top_signals
        [("A", { p := 0.5, e := 1, r := 0.9, v := 0.9 }),
         ("B", { p := 0.5, e := 1, r := 0.9, v := 0.9 }),
         ("C", { p := 0.9, e := 1, r := 0.9, v := 0.9 })] 2 =
      [("C", { p := 0.9, e := 1, r := 0.9, v := 0.9 }),
       ("A", { p := 0.5, e := 1, r := 0.9, v := 0.9 })] := by
  constructor
  · intro scores k
    refine ⟨?_, ?_, rfl, ?_⟩
    · unfold top_signals
      rw [List.length_take, List.length_insertionSort]
    · exact (List.sorted_insertionSort rankGE scores).sublist (List.take_sublist k _)
    · intro v
      have h1 : (top_signals scores k).filter (fun x => decide (peKey x = v)) <+
          (List.insertionSort rankGE scores).filter (fun x => decide (peKey x = v)) :=
        (List.take_sublist k _).filter _
      have h2 : (List.insertionSort rankGE scores).filter (fun x => decide (peKey x = v)) =
          scores.filter (fun x => decide (peKey x = v)) := by
        rw [filter_insertionSort]
        apply List.Sorted.insertionSort_eq
        apply List.pairwise_of_forall_mem_list
        intro a ha b hb
        have ha' : peKey a = v := by simpa using (List.mem_filter.mp ha).2
        have hb' : peKey b = v := by simpa using (List.mem_filter.mp hb).2
        show peKey b ≤ peKey a
        rw [ha', hb']
      rw [← h2]
      exact h1
  · norm_num [top_signals, List.insertionSort, List.orderedInsert, rankGE, peKey]

/-- Witness for C7: the selection of the spec example at `k = 0` is
empty and at `k = 2` it has length 2. -/
theorem C7_ranker_properties_witness :
    top_signals [("A", { p := 0.5, e := 1, r := 0.9, v := 0.9 })] 0 = [] ∧
    (top_signals [("A", { p := 0.5, e := 1, r := 0.9, v := 0.9 })] 2).length = 1 := by
  refine ⟨(C7_ranker_properties.1 _ 0).2.2.1, ?_⟩
  have h := (C7_ranker_properties.1
    [("A", { p := 0.5, e := 1, r := 0.9, v := 0.9 })] 2).1
  simpa using h

/-- C2: the selection computed by `tick` (rank, truncate to top `k`,
then apply the risk veto) equals the spec's RankedSelection (veto first,
then rank and truncate to top `k`) — the veto predicate is upward closed
in the ranking key, so the two orders of operations agree — and the
dispatched candidate is the single best veto-surviving candidate. -/
theorem C2_veto_commutes_with_ranking :
    ∀ (scores : List (String × Signal)) (k : ℕ),
      tick_picks scores k = rankedSelectionSpec scores k ∧
      tick_best scores =
        (List.insertionSort rankGE (scores.filter fun x => risk_manager x.2)).head? := by
  intro scores k
  have hcomm : ∀ n : ℕ, tick_picks scores n = rankedSelectionSpec scores n := by
    intro n
    unfold tick_picks top_signals rankedSelectionSpec
    have hpair : (List.insertionSort rankGE scores).Pairwise
        (fun a b => risk_manager b.2 = true → risk_manager a.2 = true) := by
      refine (List.sorted_insertionSort rankGE scores).imp ?_
      intro a b hab hb
      exact (risk_manager_iff_key a).mpr
        (le_trans ((risk_manager_iff_key b).mp hb) hab)
    rw [filter_take_of_pairwise_imp _ _ n hpair, filter_insertionSort]
  refine ⟨hcomm k, ?_⟩
  unfold tick_best
  rw [hcomm 3]
  unfold rankedSelectionSpec
  exact head?_take_pos _ 3 (by norm_num)

/-! ### Pipeline lemmas -/

/-- The default leverage of BTCUSD is the CRYPTO ceiling 40. -/
theorem max_leverage_default_BTCUSD :
    max_leverage_for defaultLeverageConfig "BTCUSD" = 40 := by
  simp [max_leverage_for, asset_class, defaultLeverageConfig]

/-- The pipeline fails before any step when no test wallet is
configured. -/
theorem process_trade_intent_config_missing (env : EnvConfig) (onchain : OnchainConfig)
    (cfg : LeverageConfig) (intent : TradeIntent) (feed : List FeedItem) (gen : ℕ → String)
    (hw : env.test_user_wallet.getD (env.relayer_address.getD "") = "") :
    process_trade_intent env onchain cfg intent feed gen =
      (.error .ConfigurationMissing, []) := by
  simp only [process_trade_intent]
  rw [if_pos hw]

/-- Shape of a pipeline run whose price resolution fails. -/
theorem process_trade_intent_price_error (env : EnvConfig) (onchain : OnchainConfig)
    (cfg : LeverageConfig) (intent : TradeIntent) (feed : List FeedItem) (gen : ℕ → String)
    (e : PriceError)
    (hw : env.test_user_wallet.getD (env.relayer_address.getD "") ≠ "")
    (hp : fetch_pyth_price intent.symbol feed = .error e) :
    process_trade_intent env onchain cfg intent feed gen =
      (.error (.Price e), [.ensure_tenant, .save_signal, .fetch_price]) := by
  simp only [process_trade_intent]
  rw [if_neg hw]
  simp only [hp]

/-- Shape of a pipeline run whose sizing fails. -/
theorem process_trade_intent_sizing_error (env : EnvConfig) (onchain : OnchainConfig)
    (cfg : LeverageConfig) (intent : TradeIntent) (feed : List FeedItem) (gen : ℕ → String)
    (price : ℚ) (e : SizingError)
    (hw : env.test_user_wallet.getD (env.relayer_address.getD "") ≠ "")
    (hp : fetch_pyth_price intent.symbol feed = .ok price)
    (hs : compute_position_size cfg (get_equity_for_user (intent.user_id.getD "TEST_USER_001"))
      intent.risk_pct price intent.symbol = .error e) :
    process_trade_intent env onchain cfg intent feed gen =
      (.error (.Sizing e),
       [.ensure_tenant, .save_signal, .fetch_price, .compute_size]) := by
  simp only [process_trade_intent]
  rw [if_neg hw]
  simp only [hp, hs]

/-- Shape of a successful pipeline run. -/
theorem process_trade_intent_eq_ok (env : EnvConfig) (onchain : OnchainConfig)
    (cfg : LeverageConfig) (intent : TradeIntent) (feed : List FeedItem) (gen : ℕ → String)
    (price : ℚ) (info : SizeInfo)
    (hw : env.test_user_wallet.getD (env.relayer_address.getD "") ≠ "")
    (hp : fetch_pyth_price intent.symbol feed = .ok price)
    (hs : compute_position_size cfg (get_equity_for_user (intent.user_id.getD "TEST_USER_001"))
      intent.risk_pct price intent.symbol = .ok info) :
    process_trade_intent env onchain cfg intent feed gen =
      (.ok { intent_id := gen 2, status := "RECEIVED", message := "intent accepted",
             symbol := intent.symbol, user_id := intent.user_id.getD "TEST_USER_001",
             risk_pct := intent.risk_pct, equity := info.equity, price := info.price,
             size := info,
             tx_hash := execute_onchain_trade onchain intent.symbol intent.direction info
               (gen 1),
             signal_id := gen 0 },
       [.ensure_tenant, .save_signal, .fetch_price, .compute_size,
        .dispatch_onchain]) := by
  simp only [process_trade_intent]
  rw [if_neg hw]
  simp only [hp, hs]

/-- The demo wallet is configured. -/
theorem demo_wallet_configured :
    demoEnv.test_user_wallet.getD (demoEnv.relayer_address.getD "") ≠ "" := by
  simp [demoEnv]

/-- Resolving the demo feed yields the price 65000. -/
theorem demo_fetch_ok : fetch_pyth_price demoIntent.symbol demoFeed = .ok 65000 := by
  have h := fetch_pyth_price_eq_ok "BTCUSD"
    "0xe62df6c8b4a85fe1a67db44dc12de5db330f7ac66b72dc658afedf0f4a415b43"
    { price := some { price := some 65000, expo := some 0 } } [] 65000 rfl rfl
  norm_num at h
  exact h

/-- Sizing the demo intent yields the spec's concrete numbers. -/
theorem demo_size_ok :
    compute_position_size defaultLeverageConfig
      (get_equity_for_user (demoIntent.user_id.getD "TEST_USER_001"))
      demoIntent.risk_pct 65000 demoIntent.symbol = .ok demoSize := by
  have hcond : ¬(get_equity_for_user (demoIntent.user_id.getD "TEST_USER_001") *
      demoIntent.risk_pct * max_leverage_for defaultLeverageConfig demoIntent.symbol ≤ 0 ∨
      (65000 : ℚ) ≤ 0) := by
    rw [show get_equity_for_user (demoIntent.user_id.getD "TEST_USER_001") = 10000 from rfl,
      show demoIntent.risk_pct = 0.008 from rfl,
      show max_leverage_for defaultLeverageConfig demoIntent.symbol = 40 from
        max_leverage_default_BTCUSD]
    norm_num
  rw [compute_position_size_eq_ok defaultLeverageConfig
    (get_equity_for_user (demoIntent.user_id.getD "TEST_USER_001"))
    demoIntent.risk_pct 65000 demoIntent.symbol hcond]
  rw [show get_equity_for_user (demoIntent.user_id.getD "TEST_USER_001") = 10000 from rfl,
    show demoIntent.risk_pct = 0.008 from rfl,
    show max_leverage_for defaultLeverageConfig demoIntent.symbol = 40 from
      max_leverage_default_BTCUSD]
  norm_num [demoSize]

/-! ### Pipeline claims -/

/-- C8: a failure at any step transitions the pipeline directly to a
typed failure and aborts the remaining steps with no partial execution:
when price resolution fails, neither sizing nor dispatch is ever
attempted; when sizing fails, dispatch is never attempted. -/
theorem C8_failfast_pipeline :
    ∀ (env : EnvConfig) (onchain : OnchainConfig) (cfg : LeverageConfig)
      (intent : TradeIntent) (feed : List FeedItem) (gen : ℕ → String),
      env.test_user_wallet.getD (env.relayer_address.getD "") ≠ "" →
      (∀ e, fetch_pyth_price intent.symbol feed = .error e →
        (process_trade_intent env onchain cfg intent feed gen).1 = .error (.Price e) ∧
        Step.compute_size ∉ (process_trade_intent env onchain cfg intent feed gen).2 ∧
        Step.dispatch_onchain ∉ (process_trade_intent env onchain cfg intent feed gen).2) ∧
      (∀ price e, fetch_pyth_price intent.symbol feed = .ok price →
        compute_position_size cfg (get_equity_for_user (intent.user_id.getD "TEST_USER_001"))
          intent.risk_pct price intent.symbol = .error e →
        (process_trade_intent env onchain cfg intent feed gen).1 = .error (.Sizing e) ∧
        Step.dispatch_onchain ∉ (process_trade_intent env onchain cfg intent feed gen).2) := by
  intro env onchain cfg intent feed gen hw
  constructor
  · intro e hp
    rw [process_trade_intent_price_error env onchain cfg intent feed gen e hw hp]
    exact ⟨rfl, by simp, by simp⟩
  · intro price e hp hs
    rw [process_trade_intent_sizing_error env onchain cfg intent feed gen price e hw hp hs]
    exact ⟨rfl, by simp⟩

/-- Witness for C8: with a configured wallet and an empty feed payload,
the pipeline fails with `FeedUnavailable` and neither sizing nor
dispatch is attempted. -/
theorem C8_failfast_pipeline_witness :
    (process_trade_intent demoEnv demoOnchain defaultLeverageConfig demoIntent [] demoGen).1 =
      .error (.Price .FeedUnavailable) ∧
    Step.compute_size ∉
      (process_trade_intent demoEnv demoOnchain defaultLeverageConfig demoIntent [] demoGen).2 ∧
    Step.dispatch_onchain ∉
      (process_trade_intent demoEnv demoOnchain defaultLeverageConfig demoIntent [] demoGen).2 :=
  (C8_failfast_pipeline demoEnv demoOnchain defaultLeverageConfig demoIntent [] demoGen
    demo_wallet_configured).1 .FeedUnavailable
    (fetch_pyth_price_empty "BTCUSD"
      "0xe62df6c8b4a85fe1a67db44dc12de5db330f7ac66b72dc658afedf0f4a415b43" rfl)

/-- The full demo pipeline run, evaluated. -/
theorem demo_pipeline_eq :
    process_trade_intent demoEnv demoOnchain defaultLeverageConfig demoIntent demoFeed
      demoGen =
      (.ok { intent_id := "cafe", status := "RECEIVED", message := "intent accepted",
             symbol := "BTCUSD", user_id := "TEST_USER_001", risk_pct := 0.008,
             equity := 10000, price := 65000, size := demoSize,
             tx_hash := "0xSTUB-" ++ "cafe", signal_id := "cafe" },
       [.ensure_tenant, .save_signal, .fetch_price, .compute_size,
        .dispatch_onchain]) := by
  rw [process_trade_intent_eq_ok demoEnv demoOnchain defaultLeverageConfig demoIntent demoFeed
    demoGen 65000 demoSize demo_wallet_configured demo_fetch_ok demo_size_ok]
  simp [demoIntent, demoGen, demoSize, execute_onchain_trade]

/-- Counterexample for C4 as stated: with the settlement collaborator
entirely unconfigured, the pipeline completes successfully, but its
terminal status field is the literal `"RECEIVED"`, not `"DISPATCHED"`. -/
theorem C4_cex_status_not_dispatched :
    get_web3 demoOnchain = false ∧
    (process_trade_intent demoEnv demoOnchain defaultLeverageConfig demoIntent demoFeed
        demoGen).1.map IntentResult.status = .ok "RECEIVED" ∧
    (process_trade_intent demoEnv demoOnchain defaultLeverageConfig demoIntent demoFeed
        demoGen).1.map IntentResult.status ≠ .ok "DISPATCHED" := by
  refine ⟨rfl, ?_, ?_⟩
  · rw [demo_pipeline_eq]
    simp [Except.map]
  · rw [demo_pipeline_eq]
    simp [Except.map]

/-- C4 (amended: the pipeline completes successfully with the tagged
stub handle, but the result's status field is the literal `"RECEIVED"`
rather than a DISPATCHED state): whenever the settlement collaborator is
unconfigured, dispatch does not fail — it returns the clearly tagged
sentinel handle `"0xSTUB-" ++ uuid`, distinguishable from any real
settlement confirmation, and a pipeline run that reached dispatch
completes successfully (not FAILED) carrying that sentinel handle. -/
theorem C4_degraded_dispatch :
    ∀ (env : EnvConfig) (onchain : OnchainConfig) (cfg : LeverageConfig)
      (intent : TradeIntent) (feed : List FeedItem) (gen : ℕ → String) (price : ℚ)
      (info : SizeInfo),
      get_web3 onchain = false →
      env.test_user_wallet.getD (env.relayer_address.getD "") ≠ "" →
      fetch_pyth_price intent.symbol feed = .ok price →
      compute_position_size cfg (get_equity_for_user (intent.user_id.getD "TEST_USER_001"))
        intent.risk_pct price intent.symbol = .ok info →
      execute_onchain_trade onchain intent.symbol intent.direction info (gen 1) =
        "0xSTUB-" ++ gen 1 ∧
      (process_trade_intent env onchain cfg intent feed gen).1.map IntentResult.tx_hash =
        .ok ("0xSTUB-" ++ gen 1) ∧
      (process_trade_intent env onchain cfg intent feed gen).1.map IntentResult.status =
        .ok "RECEIVED" := by
  intro env onchain cfg intent feed gen price info hweb hw hp hs
  have hexec : execute_onchain_trade onchain intent.symbol intent.direction info (gen 1) =
      "0xSTUB-" ++ gen 1 := by
    simp [execute_onchain_trade, hweb]
  refine ⟨hexec, ?_, ?_⟩ <;>
    rw [process_trade_intent_eq_ok env onchain cfg intent feed gen price info hw hp hs]
  · simp [Except.map, hexec]
  · simp [Except.map]

/-- Witness for C4 at the demo run: the unconfigured collaborator
produces the sentinel handle and the pipeline completes. -/
theorem C4_degraded_dispatch_witness :
    execute_onchain_trade demoOnchain demoIntent.symbol demoIntent.direction demoSize
      (demoGen 1) = "0xSTUB-" ++ demoGen 1 ∧
    (process_trade_intent demoEnv demoOnchain defaultLeverageConfig demoIntent demoFeed
        demoGen).1.map IntentResult.tx_hash = .ok ("0xSTUB-" ++ demoGen 1) ∧
    (process_trade_intent demoEnv demoOnchain defaultLeverageConfig demoIntent demoFeed
        demoGen).1.map IntentResult.status = .ok "RECEIVED" :=
  C4_degraded_dispatch demoEnv demoOnchain defaultLeverageConfig demoIntent demoFeed demoGen
    65000 demoSize rfl demo_wallet_configured demo_fetch_ok demo_size_ok

end Coordinatore
